import Mathlib

/-!
# Osprey client — verification of the real-time synchronization layer

Shallow embedding of the client-side hooks of the Osprey trading assistant:

* `submitDecision` — the decision-submission workflow of
  `useTradeProposals` (src/unnamed/part_015, lines 107–160; the
  write-through variant with the `trade-decision-submitted` broadcast).
* `applyProposalMessage` — the proposal-merge step of
  `useTradingWebSocket.handleMessage` (src/unnamed/part_017, lines 203–241).
* `WSState`/`wsStep` — the connect/reconnect/heartbeat state machine of
  `useWebSocket` (src/src/hooks/useWebSocket.ts).
* `canTakeAction`/`clickDecision` — the double-submission guard of
  `TradeProposalCard` (src/src/components/TradeProposalCard.tsx).

The remote API (`lib/api`, not part of the client code being verified) is
modelled as an input: `Except String DecisionResult` stands for the settled
promise of `api.submitDecision`.
-/

/-- A trade proposal as held in the client's proposal collection
(`lib/api`'s `TradeProposal` shape; `status` ranges over
PENDING/APPROVED/REJECTED/EXPIRED as strings, as in the source). -/
structure Proposal where
  id : String
  symbol : String
  action : String
  quantity : Nat
  price : Rat
  reason : String
  strategy : String
  status : String
  deriving Repr, DecidableEq

/-- A user decision, the argument of `submitDecision`
(`'APPROVED' | 'REJECTED'` in the source). -/
inductive Decision where
  | APPROVED
  | REJECTED
  deriving Repr, DecidableEq

/-- The string stored into the proposal's `status` field by
`{ ...p, status: decision }`. -/
def Decision.toStatus : Decision → String
  | .APPROVED => "APPROVED"
  | .REJECTED => "REJECTED"

/-- The response of `POST decision`: `{executed: bool, error?: string}`. -/
structure DecisionResult where
  executed : Bool
  error : Option String
  deriving Repr, DecidableEq

/-- The payload of the `trade-decision-submitted` CustomEvent dispatched by
`submitDecision` (part_015, lines 124–134). -/
structure DecisionBroadcast where
  proposalId : String
  decision : Decision
  proposal : Proposal
  notes : Option String
  result : DecisionResult
  deriving Repr, DecidableEq

/-- The observable outcome of one `submitDecision` call: the proposal
collection afterwards, the list of local broadcasts dispatched, the `error`
state set by the call, and whether the call re-threw. -/
structure SubmitOutcome where
  proposals : List Proposal
  broadcasts : List DecisionBroadcast
  errorState : Option String
  threw : Bool
  deriving Repr, DecidableEq

/-- Embeds `submitDecision` from `useTradeProposals` (part_015, lines 107–160).
The remote call is issued first (no optimistic update); `apiResult` is the
settled promise: `.ok r` for a fulfilled `api.submitDecision`, `.error msg`
for a rejection. On rejection nothing is updated and the error re-throws;
on fulfillment the collection is mapped (`status := decision` at the
matching id), the CustomEvent is dispatched when the original proposal was
found, and the error state is set from `result.error` / `result.executed`. -/
def submitDecision (proposals : List Proposal) (proposalId : String)
    (decision : Decision) (notes : Option String)
    (apiResult : Except String DecisionResult) : SubmitOutcome :=
  let originalProposal := proposals.find? (fun p => p.id = proposalId)
  match apiResult with
  | .error msg =>
      { proposals := proposals
        broadcasts := []
        errorState := some msg
        threw := true }
  | .ok result =>
      let updated := proposals.map (fun p =>
        if p.id = proposalId then { p with status := decision.toStatus } else p)
      let broadcasts := match originalProposal with
        | some orig =>
            [{ proposalId := proposalId, decision := decision,
               proposal := orig, notes := notes, result := result }]
        | none => []
      let errorState : Option String :=
        match result.error with
        | some e => some ("Decision recorded, but execution failed: " ++ e)
        | none =>
            if decision = .APPROVED && !result.executed then
              some "Decision recorded, but trade execution did not complete"
            else none
      { proposals := updated
        broadcasts := broadcasts
        errorState := errorState
        threw := false }

/-- An inbound WebSocket message carrying a proposal payload
(the `{type, data}` envelope with `data` a Proposal). -/
structure ProposalMessage where
  type : String
  data : Proposal
  deriving Repr, DecidableEq

/-- The effect of `useTradingWebSocket.handleMessage` (part_017,
lines 203–241) on the `proposals` collection. `trade_proposals`
(a newly created proposal): replace by id when present, otherwise prepend.
`proposal_updated`: map-replace by id only. All other message types leave
the proposals collection unchanged (`trade_logs` touches only
`tradeActivity`). -/
def applyProposalMessage (prev : List Proposal) (m : ProposalMessage) :
    List Proposal :=
  if m.type = "trade_proposals" then
    if prev.any (fun p => p.id = m.data.id) then
      prev.map (fun p => if p.id = m.data.id then m.data else p)
    else
      m.data :: prev
  else if m.type = "proposal_updated" then
    prev.map (fun p => if p.id = m.data.id then m.data else p)
  else
    prev

/-! ## The `useWebSocket` connect/reconnect/heartbeat state machine

`src/src/hooks/useWebSocket.ts`. Refs become record fields; the pending
timers become flags (`reconnectTimer` also records the scheduled delay);
`ws` models `wsRef.current` (`none` = null, which `onclose` restores).
Timer fires, socket events and the public `reconnect`/`disconnect` calls
are the events of the machine; `close(code, …)` on a live socket is
modelled as immediately running the `onclose` handler with that code, the
single-event-loop simplification of the browser's asynchronous close. -/

/-- Embeds `ConnectionState` from useWebSocket.ts, line 9. -/
inductive ConnState where
  | connecting
  | connected
  | disconnected
  | error
  deriving Repr, DecidableEq

/-- The readyState of a live socket handle (a closed socket has
`wsRef.current === null`, modelled as `none` at the `WSState` level). -/
inductive WSReady where
  | CONNECTING
  | OPEN
  deriving Repr, DecidableEq

/-- The mutable state of one `useWebSocket` instance. -/
structure WSState where
  connState : ConnState
  ws : Option WSReady
  isManualClose : Bool
  reconnectAttempts : Nat
  connectionAttempts : Nat
  /-- Field `reconnectTimeoutRef`: `some d` when a reconnect timer with delay `d`
  (milliseconds) is pending. -/
  reconnectTimer : Option Rat
  /-- Field `heartbeatTimeoutRef`: a pong-wait timeout is pending. -/
  heartbeatTimer : Bool
  /-- Field `heartbeatIntervalRef`: the periodic ping interval is active. -/
  heartbeatTicker : Bool
  /-- Field `lastPongRef` (milliseconds timestamp). -/
  lastPong : Nat
  /-- Count of `ping` frames sent (observation variable). -/
  pingsSent : Nat
  deriving Repr, DecidableEq

def maxReconnectAttempts : Nat := 10
def maxConnectionAttempts : Nat := 3
def heartbeatIntervalMs : Nat := 30000
def heartbeatTimeoutMs : Nat := 10000
def baseDelay : Rat := 1000
def reconnectDelayCap : Rat := 30000
def jitterMax : Rat := 1000
def backoffGrowth : Rat := 3 / 2

/-- The delay of the reconnect timer scheduled in `ws.onclose`
(useWebSocket.ts, lines 168–170): `Math.min(baseDelay *
Math.pow(1.5, reconnectAttemptsRef.current - 1) + jitter, 30000)`,
where the attempt counter has already been incremented and
`jitter = Math.random() * 1000`. -/
def computeReconnectDelay (attempt : Nat) (jitter : Rat) : Rat :=
  min (baseDelay * backoffGrowth ^ (attempt - 1) + jitter) reconnectDelayCap

/-- Embeds `cleanupTimers` (lines 34–47): clear the reconnect timer, the pong
timeout and the ping interval. -/
def cleanupTimers (s : WSState) : WSState :=
  { s with reconnectTimer := none, heartbeatTimer := false,
           heartbeatTicker := false }

/-- Embeds `sendPing` inside `startHeartbeat` (lines 52–63): when the socket is
OPEN, send a ping and arm the pong-wait timeout. -/
def sendPing (s : WSState) : WSState :=
  if s.ws = some .OPEN then
    { s with pingsSent := s.pingsSent + 1, heartbeatTimer := true }
  else s

/-- Embeds `startHeartbeat` (lines 49–70): clear timers, send the initial ping,
start the ping interval. -/
def startHeartbeat (s : WSState) : WSState :=
  { sendPing (cleanupTimers s) with heartbeatTicker := true }

/-- Embeds `connect` (lines 72–95, socket creation): refused while a socket is
CONNECTING or OPEN and under the concurrent-attempt guard; otherwise bump
`connectionAttempts`, enter `connecting`, clear timers and open a socket. -/
def wsConnect (s : WSState) : WSState :=
  if s.ws = some .CONNECTING ∨ s.ws = some .OPEN then s
  else if maxConnectionAttempts ≤ s.connectionAttempts then s
  else
    { cleanupTimers s with
        connectionAttempts := s.connectionAttempts + 1,
        connState := .connecting,
        ws := some .CONNECTING }

/-- Embeds `ws.onopen` (lines 97–123) at wall-clock time `t`: reset both counters,
enter `connected`, record liveness, send auth/subscribe (not state), start
the heartbeat. -/
def handleOpen (t : Nat) (s : WSState) : WSState :=
  if s.ws = some .CONNECTING then
    startHeartbeat
      { s with ws := some .OPEN, connectionAttempts := 0,
               connState := .connected, reconnectAttempts := 0,
               lastPong := t }
  else s

/-- Embeds `ws.onclose` (lines 151–183) with close code `code` and the random
jitter drawn for a possible reconnect. Decrement the connection-attempt
guard, enter `disconnected`, clear timers, null the handle; then: a manual
code-1000 close stops here; an abnormal close below the attempt cap
increments the counter and schedules one reconnect timer; at the cap the
state becomes `error`. -/
def handleClose (code : Nat) (jitter : Rat) (s : WSState) : WSState :=
  if s.ws = none then s
  else
    let s1 := { cleanupTimers s with
                  connectionAttempts := s.connectionAttempts - 1,
                  connState := .disconnected,
                  ws := none }
    if code = 1000 ∧ s1.isManualClose then s1
    else if ¬s1.isManualClose ∧ s1.reconnectAttempts < maxReconnectAttempts then
      let attempt := s1.reconnectAttempts + 1
      { s1 with reconnectAttempts := attempt,
                reconnectTimer := some (computeReconnectDelay attempt jitter) }
    else if maxReconnectAttempts ≤ s1.reconnectAttempts then
      { s1 with connState := .error }
    else s1

/-- Embeds `ws.onerror` (lines 185–190): decrement the connection-attempt guard
and report `error`; the socket handle is not nulled (onclose follows). -/
def handleWsError (s : WSState) : WSState :=
  if s.ws = none then s
  else { s with connectionAttempts := s.connectionAttempts - 1,
                connState := .error }

/-- The reconnect timer firing (lines 174–178): consume the timer and, if
no manual close intervened, call `connect`. -/
def reconnectTimerFire (s : WSState) : WSState :=
  if s.reconnectTimer = none then s
  else
    let s1 := { s with reconnectTimer := none }
    if s1.isManualClose then s1 else wsConnect s1

/-- A `pong` message handled by `ws.onmessage` (lines 130–137) at time `t`:
reset liveness and cancel the pending pong-wait timeout. -/
def handlePong (t : Nat) (s : WSState) : WSState :=
  if s.ws = some .OPEN then
    { s with lastPong := t, heartbeatTimer := false }
  else s

/-- The pong-wait timeout firing (lines 58–61): force-close the socket with
`close(1000, 'Heartbeat timeout')`, which runs the onclose path. -/
def hbTimeoutFire (jitter : Rat) (s : WSState) : WSState :=
  if s.heartbeatTimer then
    match s.ws with
    | some _ => handleClose 1000 jitter s
    | none => { s with heartbeatTimer := false }
  else s

/-- The ping interval firing (line 69): `sendPing`. -/
def pingTickFire (s : WSState) : WSState :=
  if s.heartbeatTicker then sendPing s else s

/-- Embeds `reconnect` (lines 212–223): reset the attempt counter, clear the
manual flag and the timers; close a live socket with code 1000 (running the
onclose path, which — the flag now being clear — schedules a reconnect), or
call `connect` directly when no socket exists. -/
def reconnectCall (jitter : Rat) (s : WSState) : WSState :=
  let s1 := cleanupTimers
    { s with reconnectAttempts := 0, isManualClose := false }
  match s1.ws with
  | some _ => handleClose 1000 jitter s1
  | none => wsConnect s1

/-- Embeds `disconnect` (lines 225–232): set the manual flag, clear timers, close
a live socket with code 1000. -/
def disconnectCall (jitter : Rat) (s : WSState) : WSState :=
  let s1 := cleanupTimers { s with isManualClose := true }
  match s1.ws with
  | some _ => handleClose 1000 jitter s1
  | none => s1

/-- The events that drive one `useWebSocket` instance: socket callbacks,
timer fires, and the two public mutators. Close-side events carry the
jitter `Math.random()` would draw. -/
inductive WSEvent where
  | openOk (t : Nat)
  | closeEvt (code : Nat) (jitter : Rat)
  | errorEvt
  | timerFire
  | pingTick
  | pongMsg (t : Nat)
  | hbTimeout (jitter : Rat)
  | reconnectReq (jitter : Rat)
  | disconnectReq (jitter : Rat)
  deriving Repr, DecidableEq

/-- One step of the `useWebSocket` machine. -/
def wsStep (s : WSState) (e : WSEvent) : WSState :=
  match e with
  | .openOk t => handleOpen t s
  | .closeEvt code jitter => handleClose code jitter s
  | .errorEvt => handleWsError s
  | .timerFire => reconnectTimerFire s
  | .pingTick => pingTickFire s
  | .pongMsg t => handlePong t s
  | .hbTimeout jitter => hbTimeoutFire jitter s
  | .reconnectReq jitter => reconnectCall jitter s
  | .disconnectReq jitter => disconnectCall jitter s

/-- Run a sequence of events. -/
def wsRun (s : WSState) (evs : List WSEvent) : WSState :=
  evs.foldl wsStep s

/-! ## The `TradeProposalCard` double-submission guard

`src/src/components/TradeProposalCard.tsx`: `isProcessing` state,
`handleApprove`/`handleReject` (lines 38–52), `canTakeAction` (line 86),
and the fact that the approve/reject buttons are rendered only under
`canTakeAction` (line 174). -/

/-- The view of one rendered card relevant to the guard: the proposal's
current status, its `isExpired()` evaluation, the `disabled` prop, the
card's `isProcessing` state, and whether an `onApprove`/`onReject` handler
was supplied. -/
structure CardState where
  status : String
  expired : Bool
  disabled : Bool
  isProcessing : Bool
  hasHandler : Bool
  deriving Repr, DecidableEq

/-- Embeds `canTakeAction` (TradeProposalCard.tsx, line 86). -/
def canTakeAction (c : CardState) : Bool :=
  c.status = "PENDING" && !c.expired && !c.disabled && !c.isProcessing

/-- Embeds `handleApprove`/`handleReject` (lines 38–52): return early without a
handler or while processing; otherwise set `isProcessing` and start one
submission (the emitted `some ()` stands for the awaited
`onApprove`/`onReject` call). -/
def handleDecision (c : CardState) : Option Unit × CardState :=
  if !c.hasHandler || c.isProcessing then (none, c)
  else (some (), { c with isProcessing := true })

/-- A user click on an approve/reject button: the buttons exist in the DOM
only when `canTakeAction` holds (line 174), and they are `disabled` while
processing, so a click reaches `handleDecision` only under the guard. -/
def clickDecision (c : CardState) : Option Unit × CardState :=
  if canTakeAction c then handleDecision c else (none, c)

/-- A sample proposal used for concrete witnesses and counterexamples. -/
def sampleProposal : Proposal :=
  { id := "P1", symbol := "AAPL", action := "BUY", quantity := 10,
    price := 100, reason := "momentum", strategy := "sentiment",
    status := "PENDING" }

/-! ## Helper lemmas on the replace-by-id merge step -/

theorem replaceById_map_id (d : Proposal) (l : List Proposal)
    (h : ∀ p ∈ l, p.id ≠ d.id) :
    l.map (fun p => if p.id = d.id then d else p) = l := by
  induction l with
  | nil => rfl
  | cons a t ih =>
    have ha : a.id ≠ d.id := h a (List.mem_cons_self a t)
    simp only [List.map_cons, if_neg ha]
    rw [ih (fun p hp => h p (List.mem_cons_of_mem a hp))]

theorem replaceById_map_map (d : Proposal) (l : List Proposal) :
    (l.map (fun p => if p.id = d.id then d else p)).map
        (fun p => if p.id = d.id then d else p)
      = l.map (fun p => if p.id = d.id then d else p) := by
  rw [List.map_map]
  refine List.map_congr_left fun a _ => ?_
  by_cases h : a.id = d.id <;> simp [h]

theorem replaceById_any (d : Proposal) (l : List Proposal)
    (h : l.any (fun p => p.id = d.id) = true) :
    (l.map (fun p => if p.id = d.id then d else p)).any
        (fun p => p.id = d.id) = true := by
  obtain ⟨q, hq, hq2⟩ := List.any_eq_true.mp h
  have hqid : q.id = d.id := of_decide_eq_true hq2
  refine List.any_eq_true.mpr
    ⟨(fun p => if p.id = d.id then d else p) q, List.mem_map_of_mem _ hq, ?_⟩
  simp [hqid]

theorem replaceById_filter (d : Proposal) (l : List Proposal)
    (hnd : (l.map Proposal.id).Nodup)
    (h : l.any (fun p => p.id = d.id) = true) :
    (l.map (fun p => if p.id = d.id then d else p)).filter
        (fun p => p.id = d.id) = [d] := by
  induction l with
  | nil => simp at h
  | cons a t ih =>
    simp only [List.map_cons, List.nodup_cons] at hnd
    by_cases ha : a.id = d.id
    · have htno : ∀ p ∈ t, p.id ≠ d.id := by
        intro p hp hpd
        exact hnd.1 (ha ▸ hpd ▸ List.mem_map_of_mem Proposal.id hp)
      simp only [List.map_cons, if_pos ha, List.filter_cons]
      rw [replaceById_map_id d t htno]
      have : (t.filter fun p => p.id = d.id) = [] :=
        List.filter_eq_nil_iff.mpr fun p hp => by simp [htno p hp]
      simp [this]
    · have hta : t.any (fun p => p.id = d.id) = true := by
        rcases List.any_eq_true.mp h with ⟨q, hq, hq2⟩
        rcases List.mem_cons.mp hq with rfl | hqt
        · exact absurd (of_decide_eq_true hq2) ha
        · exact List.any_eq_true.mpr ⟨q, hqt, hq2⟩
      simp only [List.map_cons, if_neg ha, List.filter_cons]
      simp only [ha, decide_False]
      exact ih hnd.2 hta

/-! ## Claims -/

/-- C1: when the remote call of `submitDecision` rejects, the proposal
collection is left unchanged (so a PENDING proposal stays PENDING) and no
local broadcast is emitted; the status is written — to the submitted
decision, by id — only on the success path. -/
theorem submitDecision_write_through (proposals : List Proposal)
    (proposalId : String) (decision : Decision) (notes : Option String)
    (msg : String) :
    (submitDecision proposals proposalId decision notes (.error msg)).proposals
        = proposals
    ∧ (submitDecision proposals proposalId decision notes
        (.error msg)).broadcasts = []
    ∧ (submitDecision proposals proposalId decision notes
        (.error msg)).threw = true
    ∧ ∀ result : DecisionResult,
        (submitDecision proposals proposalId decision notes (.ok result)).proposals
          = proposals.map (fun p =>
              if p.id = proposalId then { p with status := decision.toStatus }
              else p) :=
  ⟨rfl, rfl, rfl, fun _ => rfl⟩

/-- C3: applying the same proposal-carrying message twice to the proposal
collection yields the same collection as applying it once (for every
message type: replace-or-prepend, map-replace, and the no-op branches are
all idempotent). -/
theorem applyProposalMessage_idempotent (prev : List Proposal)
    (m : ProposalMessage) :
    applyProposalMessage (applyProposalMessage prev m) m
      = applyProposalMessage prev m := by
  by_cases ht : m.type = "trade_proposals"
  · by_cases hex : prev.any (fun p => p.id = m.data.id) = true
    · have h1 : applyProposalMessage prev m
          = prev.map (fun p => if p.id = m.data.id then m.data else p) := by
        simp [applyProposalMessage, ht, hex]
      rw [h1]
      simp only [applyProposalMessage, ht, if_pos rfl,
        replaceById_any m.data prev hex, if_true]
      exact replaceById_map_map m.data prev
    · have h1 : applyProposalMessage prev m = m.data :: prev := by
        simp [applyProposalMessage, ht, hex]
      have hnot : ∀ p ∈ prev, p.id ≠ m.data.id := by
        intro p hp
        have := List.any_eq_false.mp (Bool.eq_false_iff.mpr hex) p hp
        simpa using this
      have hany2 : ((m.data :: prev).any fun p => p.id = m.data.id) = true := by
        simp
      rw [h1]
      simp only [applyProposalMessage, ht, if_pos rfl, hany2, if_true,
        List.map_cons, if_pos rfl]
      rw [replaceById_map_id m.data prev hnot]
  · by_cases hu : m.type = "proposal_updated"
    · have h1 : applyProposalMessage prev m
          = prev.map (fun p => if p.id = m.data.id then m.data else p) := by
        simp [applyProposalMessage, ht, hu]
      rw [h1]
      simp only [applyProposalMessage, ht, hu, if_pos rfl, if_neg ht]
      exact replaceById_map_map m.data prev
    · simp [applyProposalMessage, ht, hu]

/-- C2 counterexample: a `proposal_updated` event whose id is not in the
collection is dropped (map-replace touches nothing); the collection does
NOT grow by one, refuting the insert-at-front clause for
`proposal_updated` events. -/
theorem proposal_updated_new_id_dropped :
    applyProposalMessage []
        { type := "proposal_updated", data := sampleProposal } = []
    ∧ (applyProposalMessage []
        { type := "proposal_updated", data := sampleProposal }).length
        ≠ ([] : List Proposal).length + 1 := by
  refine ⟨rfl, ?_⟩
  simp [applyProposalMessage]

/-- C2 (amended): over a collection with pairwise-distinct ids — for a
`trade_proposals` (newly created proposal) event: an existing id is
replaced in place, leaving exactly one entry with that id equal to the
payload and the length unchanged, and a new id is prepended, growing the
collection by one; for a `proposal_updated` event: an existing id is
replaced in place the same way, but a new id is a no-op (the event is
dropped, not inserted). -/
theorem applyProposalMessage_merge (prev : List Proposal)
    (m : ProposalMessage) (hnd : (prev.map Proposal.id).Nodup) :
    (m.type = "trade_proposals" →
      ((prev.any (fun p => p.id = m.data.id)) = true →
          (applyProposalMessage prev m).filter (fun p => p.id = m.data.id)
              = [m.data]
          ∧ (applyProposalMessage prev m).length = prev.length)
      ∧ ((prev.any (fun p => p.id = m.data.id)) = false →
          applyProposalMessage prev m = m.data :: prev
          ∧ (applyProposalMessage prev m).length = prev.length + 1))
    ∧ (m.type = "proposal_updated" →
      ((prev.any (fun p => p.id = m.data.id)) = true →
          (applyProposalMessage prev m).filter (fun p => p.id = m.data.id)
              = [m.data]
          ∧ (applyProposalMessage prev m).length = prev.length)
      ∧ ((prev.any (fun p => p.id = m.data.id)) = false →
          applyProposalMessage prev m = prev)) := by
  constructor
  · intro ht
    constructor
    · intro hex
      have h1 : applyProposalMessage prev m
          = prev.map (fun p => if p.id = m.data.id then m.data else p) := by
        simp [applyProposalMessage, ht, hex]
      rw [h1]
      exact ⟨replaceById_filter m.data prev hnd hex, List.length_map _ _⟩
    · intro hex
      have h1 : applyProposalMessage prev m = m.data :: prev := by
        simp [applyProposalMessage, ht, hex]
      exact ⟨h1, by rw [h1, List.length_cons]⟩
  · intro hu
    by_cases ht : m.type = "trade_proposals"
    · rw [ht] at hu; simp at hu
    · have h1 : applyProposalMessage prev m
          = prev.map (fun p => if p.id = m.data.id then m.data else p) := by
        simp [applyProposalMessage, ht, hu]
      constructor
      · intro hex
        rw [h1]
        exact ⟨replaceById_filter m.data prev hnd hex, List.length_map _ _⟩
      · intro hex
        have hnot : ∀ p ∈ prev, p.id ≠ m.data.id := by
          intro p hp
          have := List.any_eq_false.mp hex p hp
          simpa using this
        rw [h1, replaceById_map_id m.data prev hnot]

/-- An updated payload for the witness: same id, new status. -/
def sampleProposalApproved : Proposal :=
  { sampleProposal with status := "APPROVED" }

/-- Witness for the amended C2 at a concrete input: replacing `P1` in a
one-element collection leaves exactly `[payload]`, and a fresh
`proposal_updated` id is a no-op. -/
theorem applyProposalMessage_merge_witness :
    ((applyProposalMessage [sampleProposal]
        { type := "trade_proposals", data := sampleProposalApproved }).filter
          (fun p => p.id = sampleProposalApproved.id) = [sampleProposalApproved]
      ∧ (applyProposalMessage [sampleProposal]
          { type := "trade_proposals", data := sampleProposalApproved }).length
          = 1)
    ∧ applyProposalMessage [sampleProposal]
        { type := "proposal_updated",
          data := { sampleProposal with id := "P2" } } = [sampleProposal] :=
  ⟨(applyProposalMessage_merge [sampleProposal]
      { type := "trade_proposals", data := sampleProposalApproved }
      (by decide)).1 rfl |>.1 (by decide),
   (applyProposalMessage_merge [sampleProposal]
      { type := "proposal_updated", data := { sampleProposal with id := "P2" } }
      (by decide)).2 rfl |>.2 (by decide)⟩

/-- C4 counterexample: a REJECTED decision whose result carries
`executed:false` and no error sets NO warning — the error state is
cleared — although the result "carries executed:false"; the status is
still updated. This refutes the claim's warning clause as universally
stated. -/
theorem submitDecision_rejected_unexecuted_no_warning :
    (submitDecision [sampleProposal] "P1" .REJECTED none
        (.ok { executed := false, error := none })).errorState = none
    ∧ (submitDecision [sampleProposal] "P1" .REJECTED none
        (.ok { executed := false, error := none })).proposals
      = [{ sampleProposal with status := "REJECTED" }] :=
  ⟨rfl, rfl⟩

/-- C4 (amended): on a successful remote call the status is always updated
to the decided value (no rollback) and nothing is thrown; a recoverable
warning is surfaced exactly when the result carries a non-empty error, or
the decision was APPROVED and `executed` is false — a REJECTED decision
with `executed:false` and no error is treated as full success. -/
theorem submitDecision_partial_failure (proposals : List Proposal)
    (proposalId : String) (decision : Decision) (notes : Option String)
    (result : DecisionResult)
    (hfail : result.error.isSome = true
      ∨ (decision = .APPROVED ∧ result.executed = false)) :
    (submitDecision proposals proposalId decision notes (.ok result)).proposals
      = proposals.map (fun p =>
          if p.id = proposalId then { p with status := decision.toStatus }
          else p)
    ∧ (submitDecision proposals proposalId decision notes
        (.ok result)).threw = false
    ∧ (submitDecision proposals proposalId decision notes
        (.ok result)).errorState.isSome = true := by
  refine ⟨rfl, rfl, ?_⟩
  rcases result with ⟨e, err⟩
  cases err with
  | some msg => rfl
  | none =>
    rcases hfail with herr | ⟨hd, hex⟩
    · simp at herr
    · subst hd
      simp only at hex
      subst hex
      rfl

/-- Witness for the amended C4: an APPROVED decision whose result is
`{executed:false}` updates the status and surfaces a warning. -/
theorem submitDecision_partial_failure_witness :
    (submitDecision [sampleProposal] "P1" .APPROVED none
        (.ok { executed := false, error := none })).proposals
      = [sampleProposal].map (fun p =>
          if p.id = "P1" then { p with status := Decision.APPROVED.toStatus }
          else p)
    ∧ (submitDecision [sampleProposal] "P1" .APPROVED none
        (.ok { executed := false, error := none })).threw = false
    ∧ (submitDecision [sampleProposal] "P1" .APPROVED none
        (.ok { executed := false, error := none })).errorState.isSome = true :=
  submitDecision_partial_failure [sampleProposal] "P1" .APPROVED none
    { executed := false, error := none } (Or.inr ⟨rfl, rfl⟩)

/-- C8: when the remote call fulfills with `executed:true` for a proposal
present in the collection, the entry with that id gets the submitted
decision as its status, the collection keeps its size, and exactly one
broadcast is dispatched, carrying the decision and the original proposal
snapshot. -/
theorem submitDecision_committed (proposals : List Proposal)
    (proposalId : String) (decision : Decision) (notes : Option String)
    (result : DecisionResult) (orig : Proposal)
    (hfind : proposals.find? (fun p => p.id = proposalId) = some orig)
    (hexec : result.executed = true) :
    (submitDecision proposals proposalId decision notes (.ok result)).broadcasts
      = [{ proposalId := proposalId, decision := decision, proposal := orig,
           notes := notes, result := result }]
    ∧ (∀ q ∈ (submitDecision proposals proposalId decision notes
          (.ok result)).proposals, q.id = proposalId → q.status = decision.toStatus)
    ∧ (submitDecision proposals proposalId decision notes
        (.ok result)).proposals.length = proposals.length
    ∧ (submitDecision proposals proposalId decision notes
        (.ok result)).threw = false := by
  have hprop : (submitDecision proposals proposalId decision notes
      (.ok result)).proposals
      = proposals.map (fun p =>
          if p.id = proposalId then { p with status := decision.toStatus }
          else p) := rfl
  refine ⟨?_, ?_, ?_, rfl⟩
  · simp [submitDecision, hfind]
  · intro q hq hqid
    rw [hprop] at hq
    rcases List.mem_map.mp hq with ⟨p, _, hfp⟩
    by_cases hpid : p.id = proposalId
    · rw [if_pos hpid] at hfp
      rw [← hfp]
    · rw [if_neg hpid] at hfp
      rw [← hfp] at hqid
      exact absurd hqid hpid
  · rw [hprop, List.length_map]

/-- Witness for C8: approving `P1` in a one-element collection yields one
broadcast carrying the snapshot and an APPROVED entry. -/
theorem submitDecision_committed_witness :
    (submitDecision [sampleProposal] "P1" .APPROVED none
        (.ok { executed := true, error := none })).broadcasts
      = [{ proposalId := "P1", decision := .APPROVED,
           proposal := sampleProposal, notes := none,
           result := { executed := true, error := none } }]
    ∧ (∀ q ∈ (submitDecision [sampleProposal] "P1" .APPROVED none
          (.ok { executed := true, error := none })).proposals,
        q.id = "P1" → q.status = Decision.APPROVED.toStatus)
    ∧ (submitDecision [sampleProposal] "P1" .APPROVED none
        (.ok { executed := true, error := none })).proposals.length
        = [sampleProposal].length
    ∧ (submitDecision [sampleProposal] "P1" .APPROVED none
        (.ok { executed := true, error := none })).threw = false :=
  submitDecision_committed [sampleProposal] "P1" .APPROVED none
    { executed := true, error := none } sampleProposal (by decide) rfl

/-- C9: a click on an approve/reject button starts no submission while one
is already in flight for that card (`isProcessing`), starts none once the
proposal's status has left PENDING (the buttons are gone), and a second
click immediately after a successful one is rejected. -/
theorem no_double_submission (c : CardState) :
    (c.isProcessing = true → (clickDecision c).1 = none)
    ∧ (c.status ≠ "PENDING" → (clickDecision c).1 = none)
    ∧ ((clickDecision c).1.isSome = true →
        (clickDecision (clickDecision c).2).1 = none) := by
  refine ⟨?_, ?_, ?_⟩
  · intro h
    simp [clickDecision, canTakeAction, h]
  · intro h
    simp [clickDecision, canTakeAction, h]
  · intro h
    by_cases hca : canTakeAction c = true
    · simp only [clickDecision, hca, if_true] at h ⊢
      by_cases hh : (!c.hasHandler || c.isProcessing) = true
      · simp [handleDecision, hh] at h
      · simp only [handleDecision, hh, Bool.false_eq_true, if_false]
        simp [clickDecision, canTakeAction]
    · simp [clickDecision, hca] at h

/-- Witness for C9: a processing card, an already-approved card, and a
double click on a fresh pending card all emit no (second) submission. -/
theorem no_double_submission_witness :
    (clickDecision
      { status := "PENDING", expired := false, disabled := false,
        isProcessing := true, hasHandler := true }).1 = none
    ∧ (clickDecision
        { status := "APPROVED", expired := false, disabled := false,
          isProcessing := false, hasHandler := true }).1 = none
    ∧ (clickDecision (clickDecision
        { status := "PENDING", expired := false, disabled := false,
          isProcessing := false, hasHandler := true }).2).1 = none :=
  ⟨(no_double_submission _).1 rfl,
   (no_double_submission _).2.1 (by decide),
   (no_double_submission _).2.2 (by decide)⟩

/-! ## The terminal error configuration of the reconnect machine -/

/-- The configuration reached when the reconnect-attempt cap is exhausted:
`error` state, no live socket, and no pending timer of any kind. -/
def ErrorTerminal (s : WSState) : Prop :=
  s.connState = .error ∧ s.reconnectTimer = none ∧ s.ws = none
    ∧ s.heartbeatTimer = false ∧ s.heartbeatTicker = false

instance (s : WSState) : Decidable (ErrorTerminal s) := by
  unfold ErrorTerminal; infer_instance

theorem errorTerminal_step (s : WSState) (e : WSEvent)
    (hs : ErrorTerminal s) (he : ∀ j, e ≠ .reconnectReq j) :
    ErrorTerminal (wsStep s e)
    ∧ (wsStep s e).connectionAttempts = s.connectionAttempts := by
  obtain ⟨h1, h2, h3, h4, h5⟩ := hs
  cases e with
  | openOk t =>
    have hne : wsStep s (.openOk t) = s := by
      simp [wsStep, handleOpen, h3]
    rw [hne]; exact ⟨⟨h1, h2, h3, h4, h5⟩, rfl⟩
  | closeEvt code jitter =>
    have hne : wsStep s (.closeEvt code jitter) = s := by
      simp [wsStep, handleClose, h3]
    rw [hne]; exact ⟨⟨h1, h2, h3, h4, h5⟩, rfl⟩
  | errorEvt =>
    have hne : wsStep s .errorEvt = s := by
      simp [wsStep, handleWsError, h3]
    rw [hne]; exact ⟨⟨h1, h2, h3, h4, h5⟩, rfl⟩
  | timerFire =>
    have hne : wsStep s .timerFire = s := by
      simp [wsStep, reconnectTimerFire, h2]
    rw [hne]; exact ⟨⟨h1, h2, h3, h4, h5⟩, rfl⟩
  | pingTick =>
    have hne : wsStep s .pingTick = s := by
      simp [wsStep, pingTickFire, h5]
    rw [hne]; exact ⟨⟨h1, h2, h3, h4, h5⟩, rfl⟩
  | pongMsg t =>
    have hne : wsStep s (.pongMsg t) = s := by
      simp [wsStep, handlePong, h3]
    rw [hne]; exact ⟨⟨h1, h2, h3, h4, h5⟩, rfl⟩
  | hbTimeout jitter =>
    have hne : wsStep s (.hbTimeout jitter) = s := by
      simp [wsStep, hbTimeoutFire, h4]
    rw [hne]; exact ⟨⟨h1, h2, h3, h4, h5⟩, rfl⟩
  | reconnectReq jitter => exact absurd rfl (he jitter)
  | disconnectReq jitter =>
    refine ⟨⟨?_, ?_, ?_, ?_, ?_⟩, ?_⟩ <;>
      simp [wsStep, disconnectCall, cleanupTimers, h1, h3]

theorem errorTerminal_run (evs : List WSEvent) (s : WSState)
    (hs : ErrorTerminal s)
    (he : ∀ e ∈ evs, ∀ j, e ≠ WSEvent.reconnectReq j) :
    ErrorTerminal (wsRun s evs)
    ∧ (wsRun s evs).connectionAttempts = s.connectionAttempts := by
  induction evs generalizing s with
  | nil => exact ⟨hs, rfl⟩
  | cons e t ih =>
    have hstep := errorTerminal_step s e hs (he e (List.mem_cons_self e t))
    have htail := ih (wsStep s e) hstep.1
      (fun e' he' j => he e' (List.mem_cons_of_mem e he') j)
    have hrun : wsRun s (e :: t) = wsRun (wsStep s e) t := rfl
    rw [hrun]
    exact ⟨htail.1, htail.2.trans hstep.2⟩

theorem close_at_cap (s : WSState) (code : Nat) (j : Rat)
    (hm : s.isManualClose = false)
    (ha : maxReconnectAttempts ≤ s.reconnectAttempts)
    (hw : s.ws ≠ none) :
    ErrorTerminal (wsStep s (.closeEvt code j))
    ∧ (wsStep s (.closeEvt code j)).connectionAttempts
        = s.connectionAttempts - 1 := by
  have hlt : ¬ s.reconnectAttempts < maxReconnectAttempts := Nat.not_lt.mpr ha
  refine ⟨⟨?_, ?_, ?_, ?_, ?_⟩, ?_⟩ <;>
    simp [wsStep, handleClose, cleanupTimers, ErrorTerminal, hm, hw, hlt, ha]

theorem reconnect_from_terminal (s : WSState) (j : Rat)
    (hs : ErrorTerminal s)
    (hca : s.connectionAttempts < maxConnectionAttempts) :
    (wsStep s (.reconnectReq j)).reconnectAttempts = 0
    ∧ (wsStep s (.reconnectReq j)).connState = .connecting := by
  obtain ⟨h1, h2, h3, h4, h5⟩ := hs
  have hle : ¬ maxConnectionAttempts ≤ s.connectionAttempts :=
    Nat.not_le.mpr hca
  constructor <;>
    simp [wsStep, reconnectCall, cleanupTimers, wsConnect, h3, hle]

/-- C5: once the attempt counter has reached the maximum (10), the next
abnormal close puts the machine in the `error` state with no reconnect
timer pending; no sequence of further events that does not contain an
explicit `reconnect()` call ever schedules one or leaves `error`; and
`reconnect()` from that configuration resets the attempt counter to 0 and
re-enters `connecting`. -/
theorem error_terminal_until_reconnect (s : WSState) (code : Nat)
    (j jr : Rat) (evs : List WSEvent)
    (hm : s.isManualClose = false)
    (ha : maxReconnectAttempts ≤ s.reconnectAttempts)
    (hw : s.ws ≠ none)
    (hca : s.connectionAttempts ≤ maxConnectionAttempts)
    (he : ∀ e ∈ evs, ∀ j', e ≠ WSEvent.reconnectReq j') :
    ErrorTerminal (wsStep s (.closeEvt code j))
    ∧ ErrorTerminal (wsRun (wsStep s (.closeEvt code j)) evs)
    ∧ (wsStep (wsRun (wsStep s (.closeEvt code j)) evs)
        (.reconnectReq jr)).reconnectAttempts = 0
    ∧ (wsStep (wsRun (wsStep s (.closeEvt code j)) evs)
        (.reconnectReq jr)).connState = .connecting := by
  obtain ⟨hterm1, hconn1⟩ := close_at_cap s code j hm ha hw
  obtain ⟨hterm2, hconn2⟩ :=
    errorTerminal_run evs (wsStep s (.closeEvt code j)) hterm1 he
  have hca2 : (wsRun (wsStep s (.closeEvt code j)) evs).connectionAttempts
      < maxConnectionAttempts := by
    rw [hconn2, hconn1]
    have h3 : maxConnectionAttempts = 3 := rfl
    omega
  obtain ⟨hr1, hr2⟩ :=
    reconnect_from_terminal (wsRun (wsStep s (.closeEvt code j)) evs) jr
      hterm2 hca2
  exact ⟨hterm1, hterm2, hr1, hr2⟩

/-- A connected machine at the attempt cap, about to observe its final
abnormal close. -/
def wsAtCap : WSState :=
  { connState := .connected, ws := some .OPEN, isManualClose := false,
    reconnectAttempts := 10, connectionAttempts := 1,
    reconnectTimer := none, heartbeatTimer := true, heartbeatTicker := true,
    lastPong := 0, pingsSent := 1 }

/-- Witness for C5: the 11th abnormal close at the cap reaches the
terminal `error` configuration, two further non-reconnect events leave it
there, and `reconnect()` resets the counter and enters `connecting`. -/
theorem error_terminal_until_reconnect_witness :
    ErrorTerminal (wsStep wsAtCap (.closeEvt 1006 0))
    ∧ ErrorTerminal (wsRun (wsStep wsAtCap (.closeEvt 1006 0))
        [.pingTick, .pongMsg 5])
    ∧ (wsStep (wsRun (wsStep wsAtCap (.closeEvt 1006 0))
        [.pingTick, .pongMsg 5]) (.reconnectReq 0)).reconnectAttempts = 0
    ∧ (wsStep (wsRun (wsStep wsAtCap (.closeEvt 1006 0))
        [.pingTick, .pongMsg 5]) (.reconnectReq 0)).connState = .connecting :=
  error_terminal_until_reconnect wsAtCap 1006 0 0 [.pingTick, .pongMsg 5]
    rfl (by decide) (by decide) (by decide)
    (by
      intro e he j'
      rcases List.mem_cons.mp he with rfl | he2
      · simp
      · rcases List.mem_singleton.mp he2 with rfl
        simp)

/-- C6: an abnormal close whose post-increment attempt counter is
`n < 10` increments the counter by exactly one and schedules a reconnect
timer whose delay equals `min(cap, base · growth^(n−1)) + jitter` for any
jitter in `[0, jitterMax)`; the delay never exceeds `cap + jitterMax`. -/
theorem backoff_delay_formula (s : WSState) (code : Nat) (n : Nat) (j : Rat)
    (hn1 : 1 ≤ n) (hn2 : n < maxReconnectAttempts)
    (hj0 : 0 ≤ j) (hj1 : j < jitterMax)
    (hm : s.isManualClose = false)
    (hw : s.ws ≠ none)
    (hn : s.reconnectAttempts + 1 = n) :
    (wsStep s (.closeEvt code j)).reconnectAttempts
        = s.reconnectAttempts + 1
    ∧ (wsStep s (.closeEvt code j)).reconnectTimer
        = some (computeReconnectDelay n j)
    ∧ computeReconnectDelay n j
        = min reconnectDelayCap (baseDelay * backoffGrowth ^ (n - 1)) + j
    ∧ computeReconnectDelay n j ≤ reconnectDelayCap + jitterMax := by
  have hM : maxReconnectAttempts = 10 := rfl
  have hlt : s.reconnectAttempts < maxReconnectAttempts := by omega
  have hg1 : (1 : Rat) ≤ backoffGrowth := by norm_num [backoffGrowth]
  have hpow : backoffGrowth ^ (n - 1) ≤ backoffGrowth ^ (8 : Nat) :=
    pow_le_pow_right₀ hg1 (by omega : n - 1 ≤ 8)
  have h8 : backoffGrowth ^ (8 : Nat) = 6561 / 256 := by
    norm_num [backoffGrowth]
  have hpow8 : backoffGrowth ^ (n - 1) ≤ 6561 / 256 := h8 ▸ hpow
  have hble : baseDelay * backoffGrowth ^ (n - 1) ≤ 6561000 / 256 := by
    calc baseDelay * backoffGrowth ^ (n - 1)
        ≤ baseDelay * (6561 / 256) := by
          apply mul_le_mul_of_nonneg_left hpow8 (by norm_num [baseDelay])
      _ = 6561000 / 256 := by norm_num [baseDelay]
  have hjm : j < 1000 := by simpa [jitterMax] using hj1
  have hlt30 : baseDelay * backoffGrowth ^ (n - 1) + j < reconnectDelayCap := by
    have hc : reconnectDelayCap = 30000 := rfl
    rw [hc]
    have : (6561000 : Rat) / 256 + 1000 < 30000 := by norm_num
    linarith
  refine ⟨?_, ?_, ?_, ?_⟩
  · simp [wsStep, handleClose, cleanupTimers, hm, hw, hlt]
  · simp [wsStep, handleClose, cleanupTimers, hm, hw, hlt, hn]
  · simp only [computeReconnectDelay]
    rw [min_eq_left (le_of_lt hlt30),
      min_eq_right (by linarith :
        baseDelay * backoffGrowth ^ (n - 1) ≤ reconnectDelayCap)]
  · simp only [computeReconnectDelay]
    have hmr : min (baseDelay * backoffGrowth ^ (n - 1) + j)
        reconnectDelayCap ≤ reconnectDelayCap := min_le_right _ _
    have hjm0 : (0 : Rat) ≤ jitterMax := by norm_num [jitterMax]
    linarith

/-- A machine two failed attempts in, about to observe its third abnormal
close. -/
def wsRetry : WSState :=
  { connState := .disconnected, ws := some .CONNECTING,
    isManualClose := false, reconnectAttempts := 2, connectionAttempts := 1,
    reconnectTimer := none, heartbeatTimer := false,
    heartbeatTicker := false, lastPong := 0, pingsSent := 0 }

/-- Witness for C6 at `n = 3`, `jitter = 1/2`. -/
theorem backoff_delay_formula_witness :
    (wsStep wsRetry (.closeEvt 1006 (1/2))).reconnectAttempts
        = wsRetry.reconnectAttempts + 1
    ∧ (wsStep wsRetry (.closeEvt 1006 (1/2))).reconnectTimer
        = some (computeReconnectDelay 3 (1/2))
    ∧ computeReconnectDelay 3 (1/2)
        = min reconnectDelayCap (baseDelay * backoffGrowth ^ (3 - 1)) + 1/2
    ∧ computeReconnectDelay 3 (1/2) ≤ reconnectDelayCap + jitterMax :=
  backoff_delay_formula wsRetry 1006 3 (1/2) (by norm_num)
    (by norm_num [maxReconnectAttempts]) (by norm_num)
    (by norm_num [jitterMax]) rfl (by decide) rfl

/-- A live connected machine with a ping outstanding. -/
def wsLive : WSState :=
  { connState := .connected, ws := some .OPEN, isManualClose := false,
    reconnectAttempts := 0, connectionAttempts := 0, reconnectTimer := none,
    heartbeatTimer := true, heartbeatTicker := true, lastPong := 0,
    pingsSent := 1 }

/-- C7: while the heartbeat is active and the socket is open, each
interval tick sends one ping and arms the pong timeout; a missed heartbeat
(pong-timeout fire) force-closes the socket exactly once — clearing the
timeout, so a second fire is a no-op — and schedules the abnormal-close
reconnect; a pong received before the timeout cancels it and resets the
liveness timestamp. -/
theorem heartbeat_timeout_forces_reconnect (s : WSState) (j j' : Rat)
    (t : Nat) :
    (s.heartbeatTicker = true → s.ws = some .OPEN →
        (wsStep s .pingTick).pingsSent = s.pingsSent + 1
        ∧ (wsStep s .pingTick).heartbeatTimer = true)
    ∧ (s.heartbeatTimer = true → s.ws ≠ none → s.isManualClose = false →
        s.reconnectAttempts < maxReconnectAttempts →
        (wsStep s (.hbTimeout j)).ws = none
        ∧ (wsStep s (.hbTimeout j)).heartbeatTimer = false
        ∧ (wsStep s (.hbTimeout j)).reconnectTimer.isSome = true
        ∧ wsStep (wsStep s (.hbTimeout j)) (.hbTimeout j')
            = wsStep s (.hbTimeout j))
    ∧ (s.ws = some .OPEN →
        (wsStep s (.pongMsg t)).heartbeatTimer = false
        ∧ (wsStep s (.pongMsg t)).lastPong = t) := by
  refine ⟨?_, ?_, ?_⟩
  · intro h5 hopen
    constructor <;> simp [wsStep, pingTickFire, sendPing, h5, hopen]
  · intro h4 hw hm hlt
    have h1 : wsStep s (.hbTimeout j) = handleClose 1000 j s := by
      cases hws : s.ws with
      | none => exact absurd hws hw
      | some w => simp [wsStep, hbTimeoutFire, h4, hws]
    have hmain : (handleClose 1000 j s).ws = none
        ∧ (handleClose 1000 j s).heartbeatTimer = false
        ∧ (handleClose 1000 j s).reconnectTimer.isSome = true := by
      refine ⟨?_, ?_, ?_⟩ <;>
        simp [handleClose, cleanupTimers, hm, hw, hlt]
    refine ⟨h1 ▸ hmain.1, h1 ▸ hmain.2.1, h1 ▸ hmain.2.2, ?_⟩
    rw [h1]
    simp [wsStep, hbTimeoutFire, hmain.2.1]
  · intro hopen
    constructor <;> simp [wsStep, handlePong, hopen]

/-- Witness for C7 at the live machine, jitter 0, pong timestamp 42. -/
theorem heartbeat_timeout_forces_reconnect_witness :
    ((wsStep wsLive .pingTick).pingsSent = wsLive.pingsSent + 1
      ∧ (wsStep wsLive .pingTick).heartbeatTimer = true)
    ∧ ((wsStep wsLive (.hbTimeout 0)).ws = none
      ∧ (wsStep wsLive (.hbTimeout 0)).heartbeatTimer = false
      ∧ (wsStep wsLive (.hbTimeout 0)).reconnectTimer.isSome = true
      ∧ wsStep (wsStep wsLive (.hbTimeout 0)) (.hbTimeout 0)
          = wsStep wsLive (.hbTimeout 0))
    ∧ ((wsStep wsLive (.pongMsg 42)).heartbeatTimer = false
      ∧ (wsStep wsLive (.pongMsg 42)).lastPong = 42) :=
  ⟨(heartbeat_timeout_forces_reconnect wsLive 0 0 42).1 rfl rfl,
   (heartbeat_timeout_forces_reconnect wsLive 0 0 42).2.1 rfl (by decide)
     rfl (by decide),
   (heartbeat_timeout_forces_reconnect wsLive 0 0 42).2.2 rfl⟩

/-- C10: whether a close schedules a reconnect depends only on the manual
flag and the attempt counter — for every close code, a timer is scheduled
iff the close was not manual and the counter is below the cap (so code
1000 without `disconnect()` still reconnects, and after `disconnect()` no
code does); the scheduled timer is identical across close codes; and the
heartbeat-timeout force-close behaves exactly as a code-1000 close
event. -/
theorem reconnect_ignores_close_code (s : WSState) (code code' : Nat)
    (j : Rat) (hw : s.ws ≠ none) :
    ((wsStep s (.closeEvt code j)).reconnectTimer.isSome = true
      ↔ (s.isManualClose = false
          ∧ s.reconnectAttempts < maxReconnectAttempts))
    ∧ (wsStep s (.closeEvt code j)).reconnectTimer
        = (wsStep s (.closeEvt code' j)).reconnectTimer
    ∧ (s.heartbeatTimer = true →
        wsStep s (.hbTimeout j) = wsStep s (.closeEvt 1000 j)) := by
  have key : ∀ c : Nat, (handleClose c j s).reconnectTimer
      = if s.isManualClose = false
            ∧ s.reconnectAttempts < maxReconnectAttempts
        then some (computeReconnectDelay (s.reconnectAttempts + 1) j)
        else none := by
    intro c
    cases hm : s.isManualClose with
    | true =>
      by_cases hc : c = 1000
      · simp [handleClose, hw, hc, hm, cleanupTimers]
      · by_cases hcap : maxReconnectAttempts ≤ s.reconnectAttempts
        · simp [handleClose, hw, hc, hm, cleanupTimers, hcap,
            Nat.not_lt.mpr hcap]
        · simp [handleClose, hw, hc, hm, cleanupTimers, hcap,
            Nat.lt_of_not_le hcap]
    | false =>
      by_cases hlt : s.reconnectAttempts < maxReconnectAttempts
      · simp [handleClose, hw, hm, cleanupTimers, hlt]
      · simp [handleClose, hw, hm, cleanupTimers, hlt,
          Nat.not_lt.mp hlt]
  refine ⟨?_, ?_, ?_⟩
  · show (handleClose code j s).reconnectTimer.isSome = true ↔ _
    rw [key code]
    by_cases h : s.isManualClose = false
        ∧ s.reconnectAttempts < maxReconnectAttempts
    · simp [h]
    · simp [h]
  · show (handleClose code j s).reconnectTimer
        = (handleClose code' j s).reconnectTimer
    rw [key code, key code']
  · intro h4
    cases hws : s.ws with
    | none => exact absurd hws hw
    | some w => simp [wsStep, hbTimeoutFire, h4, hws]

/-- Witness for C10 at the live machine: a non-manual code-1000 close
(attempts below cap) schedules a timer identical to an abnormal-code
close, and the heartbeat force-close equals the code-1000 close. -/
theorem reconnect_ignores_close_code_witness :
    ((wsStep wsLive (.closeEvt 1000 0)).reconnectTimer.isSome = true
      ↔ (wsLive.isManualClose = false
          ∧ wsLive.reconnectAttempts < maxReconnectAttempts))
    ∧ (wsStep wsLive (.closeEvt 1000 0)).reconnectTimer
        = (wsStep wsLive (.closeEvt 1006 0)).reconnectTimer
    ∧ (wsLive.heartbeatTimer = true →
        wsStep wsLive (.hbTimeout 0) = wsStep wsLive (.closeEvt 1000 0)) :=
  reconnect_ignores_close_code wsLive 1000 1006 0 (by decide)
